import Mathlib

/-!
Shallow embedding of the CNC-FORECAST backend core
(`backend/app/services/fingerprint_service.py`,
 `backend/app/services/template_service.py`,
 `backend/app/services/excel_service.py`,
 `backend/app/api/routes/upload.py`), together with theorems settling
the frozen claims about it.

Conventions of the embedding:
* A spreadsheet cell value is `CellValue`: absent (`none`), an integer,
  a float (modelled as an exact rational, the standard idealization of
  the terminating binary/decimal values spreadsheets hold), or a string.
* A sheet is a total function from (row, column) to `CellValue`,
  1-indexed as in openpyxl, together with explicit `maxRow`/`maxCol`.
* Python truthiness (`if cell_val:`) is `pyTruthy`; `str(...)` is `pyStr`;
  `range(a, b)` is `pyRange a b`; the substring operator `needle in hay`
  is `pyIn hay needle`.
* Fractions (`accuracy_rate`, similarity scores, confidences) are `ℚ`.
-/

inductive CellValue where
  | none
  | int (n : ℤ)
  | num (q : ℚ)
  | str (s : String)
deriving DecidableEq, Repr

/-- Python truthiness of a cell value (`if cell_val:`). -/
def pyTruthy : CellValue → Bool
  | .none => false
  | .int n => n != 0
  | .num q => q != 0
  | .str s => s != ""

/-- Python `int(q)` on a float value: truncation toward zero. -/
def truncQ (q : ℚ) : ℤ := if 0 ≤ q then ⌊q⌋ else ⌈q⌉

/-- `m` printed in base 10 and left-padded with zeros to `k` digits. -/
def padZeros (k : ℕ) (m : ℕ) : String :=
  ⟨List.replicate (k - (toString m).toList.length) '0'⟩ ++ toString m

/-- Python `str()` of a float, for the terminating decimal values
spreadsheet floats hold: minimal fraction digits, and `".0"` for
integral values (`str(7.0) = "7.0"`). Rationals outside that domain
(which no Python float represents) fall back to 30 truncated fraction
digits. -/
def pyStrNum (q : ℚ) : String :=
  let sgn := if q < 0 then "-" else ""
  let n := q.num.natAbs
  let d := q.den
  let k := ((List.range 1101).find? (fun k => (10 ^ k) % d = 0)).getD 30
  let scaled := n * 10 ^ k / d
  sgn ++ toString (scaled / 10 ^ k) ++ "." ++
    (if k = 0 then "0" else padZeros k (scaled % 10 ^ k))

/-- Python `str(...)` on a cell value. -/
def pyStr : CellValue → String
  | .none => "None"
  | .int n => toString n
  | .num q => pyStrNum q
  | .str s => s

/-- Python `range(a, b)`: the list `[a, a+1, ..., b-1]`. -/
def pyRange (a b : ℕ) : List ℕ := List.range' a (b - a)

/-- `leadMatch needle hay`: `needle` is an initial segment of `hay`. -/
def leadMatch : List Char → List Char → Bool
  | [], _ => true
  | _ :: _, [] => false
  | a :: as, b :: bs => a == b && leadMatch as bs

/-- `seg needle hay`: `needle` occurs as a contiguous segment of `hay`. -/
def seg (needle : List Char) : List Char → Bool
  | [] => leadMatch needle []
  | b :: bs => leadMatch needle (b :: bs) || seg needle bs

/-- Python `needle in hay` on strings (substring containment). -/
def pyIn (hay needle : String) : Bool := seg needle.toList hay.toList

/-- Python `str.strip()` with no argument (whitespace at both ends),
written over the character list so that it evaluates by reduction. -/
def pyStrip (s : String) : String :=
  ⟨((s.toList.dropWhile Char.isWhitespace).reverse.dropWhile
    Char.isWhitespace).reverse⟩

/-- Python `str.lower()` (ASCII case mapping), written over the
character list so that it evaluates by reduction. -/
def pyLower (s : String) : String := ⟨s.toList.map Char.toLower⟩

/-- Python `str.replace(",", "")`: drop every comma. -/
def pyRemoveCommas (s : String) : String :=
  ⟨s.toList.filter (fun c => c ≠ ',')⟩

/-- A sheet: total map from (row, column), 1-indexed, to cell values. -/
abbrev Sheet := ℕ → ℕ → CellValue

/-- The `common` count of `calculate_similarity`:
`sum(1 for a, b in zip(fingerprint1, fingerprint2) if a == b)`. -/
def agreeCount (fingerprint1 fingerprint2 : String) : ℕ :=
  ((fingerprint1.toList.zip fingerprint2.toList).filter
    (fun ab => ab.1 = ab.2)).length

/-- `fingerprint_service.calculate_similarity` when no file paths are
supplied: 100 on byte-equal fingerprints, otherwise the positional
character-agreement ratio as a percentage (Python true division). -/
def calculate_similarity (fingerprint1 fingerprint2 : String) : ℚ :=
  if fingerprint1 = fingerprint2 then 100
  else ((agreeCount fingerprint1 fingerprint2 : ℚ) /
    (fingerprint1.toList.length : ℚ)) * 100

/-- `ExcelTemplate` row (`template_models.py`): the fields the services
read and write. -/
structure Template where
  id : ℕ
  name : String
  fingerprint : String
  accuracy_rate : ℚ
  use_count : ℕ
  is_active : Bool
deriving DecidableEq, Repr

/-- `settings.TEMPLATE_MIN_CONFIDENCE` (config.py, default 0.7). -/
def TEMPLATE_MIN_CONFIDENCE : ℚ := 7/10

/-- `settings.TEMPLATE_AUTO_DISABLE_THRESHOLD` (config.py, default 0.7). -/
def TEMPLATE_AUTO_DISABLE_THRESHOLD : ℚ := 7/10

/-- The fuzzy-search loop of `find_matching_template`: fold over all
active templates keeping the strictly best (score, template) pair. -/
def bestTemplateFold (fp : String) (templates : List Template)
    (acc : Option Template × ℚ) : Option Template × ℚ :=
  templates.foldl
    (fun acc t =>
      let score := calculate_similarity fp t.fingerprint
      if score > acc.2 then (some t, score) else acc)
    acc

/-- `template_service.find_matching_template`, with the database table
modelled as the list of its rows (query order = list order) and the
document already fingerprinted. -/
def find_matching_template (templates : List Template) (fp : String) :
    Option Template × ℚ :=
  match templates.find? (fun t => t.fingerprint == fp && t.is_active) with
  | some t => (some t, 100)
  | Option.none =>
    let best := bestTemplateFold fp (templates.filter (·.is_active))
      (Option.none, 0)
    if best.2 ≥ TEMPLATE_MIN_CONFIDENCE * 100 then best
    else (Option.none, 0)

/-- `TemplateUsage` row appended by `record_usage`. -/
structure UsageEvent where
  template_id : ℕ
  match_score : ℚ
  was_successful : Bool
  processing_time_ms : ℤ
deriving DecidableEq, Repr

/-- The statistics update `record_usage` applies to the found template:
increment `use_count`, EMA-update `accuracy_rate`, deactivate when the
new accuracy falls below the auto-disable threshold. -/
def recordUsageUpdate (succ : Bool) (t : Template) : Template :=
  let t1 := { t with use_count := t.use_count + 1 }
  let newAcc :=
    if succ then t1.accuracy_rate * (9/10) + 1 * (1/10)
    else t1.accuracy_rate * (9/10) + 0 * (1/10)
  let t2 := { t1 with accuracy_rate := newAcc }
  if t2.accuracy_rate < TEMPLATE_AUTO_DISABLE_THRESHOLD then
    { t2 with is_active := false }
  else t2

/-- Update the first list element satisfying `p` (SQLAlchemy
`.filter(...).first()` followed by in-place mutation). -/
def updateFirst (p : α → Bool) (f : α → α) : List α → List α
  | [] => []
  | x :: xs => if p x then f x :: xs else x :: updateFirst p f xs

/-- Template database state: the `ExcelTemplate` and `TemplateUsage`
tables as lists of rows. -/
structure TemplateDb where
  templates : List Template
  usages : List UsageEvent
deriving Repr

/-- `template_service.get_template`: first row with the given id. -/
def get_template (templates : List Template) (template_id : ℕ) :
    Option Template :=
  templates.find? (fun t => t.id == template_id)

/-- `template_service.record_usage`: append a `TemplateUsage` row and,
if a template with the given id exists, apply the statistics update to
it. -/
def record_usage (db : TemplateDb) (template_id : ℕ) (match_score : ℚ)
    (was_successful : Bool) (processing_time_ms : ℤ) : TemplateDb :=
  { templates :=
      updateFirst (fun t => t.id == template_id)
        (recordUsageUpdate was_successful) db.templates,
    usages := db.usages ++
      [⟨template_id, match_score, was_successful, processing_time_ms⟩] }

/-- `CellMapping` as consumed by `parse_with_mapping` (the `mapping`
dict after its `.get` defaults, with column letters already converted
to 1-based indices by `column_index_from_string`). -/
structure CellMapping where
  model_column : ℕ
  model_start_row : ℕ
  date_row : ℕ
  date_start_column : ℕ
  skip_rows : List ℕ
  skip_columns : List String
deriving DecidableEq, Repr

/-- A record produced by `parse_with_mapping`
(`{"model": ..., "period": ..., "quantity": ...}`). -/
structure MappedRecord where
  model : String
  period : String
  quantity : ℤ
deriving DecidableEq, Repr

/-- `excel_service.parse_with_mapping`: collect the (column, period
label) pairs of the date-header row, then for every non-skipped row
with a truthy model cell emit one record per date column whose value
cell is a truthy number (`if quantity and isinstance(quantity, (int,
float))`, then `int(quantity)`). -/
def parse_with_mapping (sheet : Sheet) (maxRow maxCol : ℕ)
    (mapping : CellMapping) : List MappedRecord :=
  let dates : List (ℕ × String) :=
    (pyRange mapping.date_start_column (maxCol + 1)).filterMap
      (fun col =>
        let v := sheet mapping.date_row col
        if pyTruthy v && !(mapping.skip_columns.contains (pyStr v)) then
          some (col, pyStr v)
        else Option.none)
  (pyRange mapping.model_start_row (maxRow + 1)).flatMap
    (fun row =>
      if mapping.skip_rows.contains row then []
      else
        let model := sheet row mapping.model_column
        if !pyTruthy model then []
        else
          dates.filterMap (fun cd =>
            match sheet row cd.1 with
            | .int n => if n != 0 then some ⟨pyStr model, cd.2, n⟩
                        else Option.none
            | .num q => if q != 0 then
                          some ⟨pyStr model, cd.2, truncQ q⟩
                        else Option.none
            | _ => Option.none))

/-- `excel_service.is_cnc_forecast_format`: over `range(1, min(6,
max_row+1)) × range(1, min(20, max_col+1))`, look for a truthy cell
whose lowercased text contains "forecast" or "cnc", and for one whose
lowercased text contains "week"; detected iff both are found. -/
def is_cnc_forecast_format (sheet : Sheet) (maxRow maxCol : ℕ) : Bool :=
  let rows := pyRange 1 (min 6 (maxRow + 1))
  let cols := pyRange 1 (min 20 (maxCol + 1))
  let found_forecast := rows.any (fun r => cols.any (fun c =>
    pyTruthy (sheet r c) &&
      (pyIn (pyLower (pyStr (sheet r c))) "forecast" ||
       pyIn (pyLower (pyStr (sheet r c))) "cnc")))
  let found_week := rows.any (fun r => cols.any (fun c =>
    pyTruthy (sheet r c) && pyIn (pyLower (pyStr (sheet r c))) "week"))
  found_forecast && found_week

/-- Step 1 of `parse_cnc_forecast`: the rows of `range(1, min(30,
max_row+1))` holding, within `range(1, min(20, max_col+1))`, a truthy
cell whose lowercased stripped text contains both "forecast" and "cnc"
(the inner `break` only stops the column scan, so the row is appended
at most once). -/
def forecastRows (sheet : Sheet) (maxRow maxCol : ℕ) : List ℕ :=
  (pyRange 1 (min 30 (maxRow + 1))).filter (fun r =>
    (pyRange 1 (min 20 (maxCol + 1))).any (fun c =>
      pyTruthy (sheet r c) &&
        (pyIn (pyStrip (pyLower (pyStr (sheet r c)))) "forecast" &&
         pyIn (pyStrip (pyLower (pyStr (sheet r c)))) "cnc")))

/-- Step 1 of `parse_cnc_forecast`, continued: the data section starts
at the second anchor row when there are two or more, at the sole anchor
row when there is exactly one, and at row 1 otherwise. -/
def data_section_start (sheet : Sheet) (maxRow maxCol : ℕ) : ℕ :=
  match forecastRows sheet maxRow maxCol with
  | [] => 1
  | [r] => r
  | _ :: r :: _ => r

/-- Numeric value of an ASCII digit character. -/
def digitVal (c : Char) : ℕ := c.toNat - 48

/-- Day part of `re.match(r'(\d{1,2})/(\d{1,2})', ...)`: one or two
digits, greedily, at the pattern's end (no trailing anchor). -/
def mmddDay (m : ℕ) : List Char → Option (ℕ × ℕ)
  | a :: b :: _ =>
    if a.isDigit then
      if b.isDigit then some (m, 10 * digitVal a + digitVal b)
      else some (m, digitVal a)
    else Option.none
  | [a] => if a.isDigit then some (m, digitVal a) else Option.none
  | [] => Option.none

/-- `re.match(r'(\d{1,2})/(\d{1,2})', s)` on `s.toList`, returning the
two captured groups as numbers. The month group is greedy with
backtracking: two digits followed by `/`, else one digit followed by
`/`. -/
def matchMMDD : List Char → Option (ℕ × ℕ)
  | c1 :: c2 :: rest =>
    if c1.isDigit then
      if c2.isDigit then
        match rest with
        | '/' :: rest2 => mmddDay (10 * digitVal c1 + digitVal c2) rest2
        | _ => Option.none
      else if c2 = '/' then mmddDay (digitVal c1) rest
      else Option.none
    else Option.none
  | _ => Option.none

/-- Python `f"{n:02d}"` for a natural number. -/
def pad2 (n : ℕ) : String := if n < 10 then "0" ++ toString n else toString n

/-- The per-cell date-column mapping of `parse_cnc_forecast` (string
branch): strip the cell text, match `MM/DD`, and build
`f"{year}-{month:02d}-{day:02d}"` with
`year = current_year if month >= current_month - 1 else current_year + 1`.
(Cells holding native `datetime` values are outside the modelled cell
domain; no claim concerns them.) -/
def mapDateCell (currentYear currentMonth : ℤ) (v : CellValue) :
    Option String :=
  if pyTruthy v then
    match matchMMDD (pyStrip (pyStr v)).toList with
    | some md =>
      let year := if (md.1 : ℤ) ≥ currentMonth - 1 then currentYear
                  else currentYear + 1
      some (toString year ++ "-" ++ pad2 md.1 ++ "-" ++ pad2 md.2)
    | Option.none => Option.none
  else Option.none

/-- Value of a digit list read left to right in base 10. -/
def digitsToNat (l : List Char) : ℕ :=
  l.foldl (fun a c => 10 * a + digitVal c) 0

/-- Python `float(s)` on the plain decimal literals the parser meets:
optional sign, integer digits, optional fractional digits; `none` when
`float` would raise `ValueError`. (Exponent/`inf`/`nan` forms are not
modelled; no claim depends on them.) -/
def pyFloat (s : String) : Option ℚ :=
  let signRest : ℚ × List Char :=
    match s.toList with
    | '-' :: r => (-1, r)
    | '+' :: r => (1, r)
    | r => (1, r)
  let intPart := signRest.2.takeWhile Char.isDigit
  let rest2 := signRest.2.dropWhile Char.isDigit
  match rest2 with
  | [] =>
    if intPart = [] then Option.none
    else some (signRest.1 * (digitsToNat intPart : ℚ))
  | '.' :: frac =>
    let fracPart := frac.takeWhile Char.isDigit
    if frac.dropWhile Char.isDigit = [] ∧
        (intPart ≠ [] ∨ fracPart ≠ []) then
      some (signRest.1 * ((digitsToNat intPart : ℚ) +
        (digitsToNat fracPart : ℚ) / (10 : ℚ) ^ fracPart.length))
    else Option.none
  | _ => Option.none

/-- The per-cell quantity pipeline of `parse_cnc_forecast` (lines
314-322): `None` is skipped; strings have commas removed and are
stripped, `"-"`/`""` are skipped, the rest go through
`int(float(...))`; integer cells pass through unchanged
(`int(float(n)) = n`) and float cells are truncated toward zero; a
`ValueError` means the cell is skipped. -/
def parseQuantity : CellValue → Option ℤ
  | .none => Option.none
  | .int n => some n
  | .num q => some (truncQ q)
  | .str s =>
    let s2 := pyStrip (pyRemoveCommas s)
    if s2 = "-" ∨ s2 = "" then Option.none
    else (pyFloat s2).map truncQ

/-- `skip_keywords` of `parse_cnc_forecast`. -/
def skipKeywords : List String := ["total", "합계", "sum", "ag tech", "agtech"]

/-- One record of `parse_cnc_forecast`
(`{"model", "process", "period", "quantity"}`). -/
structure CncRecord where
  model : String
  process : String
  period : String
  quantity : ℤ
deriving DecidableEq, Repr

/-- One iteration of the data loop of `parse_cnc_forecast` (lines
293-332): update the carried `current_model` from the model cell
(kept unchanged on a blank cell or on a skip-keyword match), skip the
row when `if not current_model:` fires — the carried model is still
`None` or is the falsy empty string (a whitespace-only model cell
strips to `""`) — or when the process cell strips to empty, and
otherwise emit one record per date column whose quantity parses to a
strictly positive integer. Returns the new carried model and the
row's records. -/
def cncProcessRow (sheet : Sheet) (modelCol processCol : ℕ)
    (dateColumns : List (ℕ × String)) (rowNum : ℕ)
    (currentModel : Option String) : Option String × List CncRecord :=
  let modelCell := sheet rowNum modelCol
  let newModel :=
    if pyTruthy modelCell then
      let modelStr := pyStrip (pyStr modelCell)
      if skipKeywords.any (fun kw => pyIn (pyLower modelStr) kw) then
        currentModel
      else some modelStr
    else currentModel
  match newModel with
  | Option.none => (Option.none, [])
  | some m =>
    if m = "" then (newModel, [])
    else
      let processCell := sheet rowNum processCol
      let process := if pyTruthy processCell then
          pyStrip (pyStr processCell)
        else ""
      if process = "" then (newModel, [])
      else
        (newModel,
         dateColumns.filterMap (fun cd =>
           match parseQuantity (sheet rowNum cd.1) with
           | some q => if q > 0 then some ⟨m, process, cd.2, q⟩
                       else Option.none
           | Option.none => Option.none))

/-- The data loop of `parse_cnc_forecast` over a list of row numbers,
threading `current_model` (initially `None`) and concatenating the
rows' records in order. `modelCol`, `processCol` and `dateColumns`
come from the header searches of steps 2-3 (lines 204-283). -/
def cncDataLoop (sheet : Sheet) (modelCol processCol : ℕ)
    (dateColumns : List (ℕ × String)) :
    List ℕ → Option String → List CncRecord
  | [], _ => []
  | r :: rs, cur =>
    let step := cncProcessRow sheet modelCol processCol dateColumns r cur
    step.2 ++ cncDataLoop sheet modelCol processCol dateColumns rs step.1

/-- `ForecastItem` (schemas.py): `process` is optional with default
`None`. -/
structure ForecastItem where
  model : String
  period : String
  process : Option String
  quantity : ℤ
deriving DecidableEq, Repr

/-- `ForecastItem(**item)` on a `parse_cnc_forecast` record. -/
def ForecastItem.ofCnc (r : CncRecord) : ForecastItem :=
  ⟨r.model, r.period, some r.process, r.quantity⟩

/-- `ForecastItem(**item)` / explicit construction on a
model-period-quantity record (`process` defaults to `None`). -/
def ForecastItem.ofMapped (r : MappedRecord) : ForecastItem :=
  ⟨r.model, r.period, Option.none, r.quantity⟩

/-- The dict returned by `parse_cnc_forecast`. -/
structure CncParseResult where
  data : List CncRecord
  confidence : ℚ
  notes : String
  template_name : String
deriving DecidableEq, Repr

/-- The parsed reply of `llm_service.verify_template_result`:
`is_valid` is read with `.get("is_valid", False)`, `confidence` with
`.get("confidence", 0.8)` (`none` = key absent), `corrections` with
`.get("corrections", [])`. -/
structure Verification where
  is_valid : Bool
  confidence : Option ℚ
  corrections : List MappedRecord
deriving DecidableEq, Repr

/-- The parsed reply of `llm_service.analyze_excel_image`: `data` read
with `.get("data", [])`, `confidence` with `.get("confidence", 0.0)`,
`notes` with `.get("notes", ...)` (`none` = key absent). -/
structure Analysis where
  data : List MappedRecord
  confidence : Option ℚ
  notes : Option String
deriving DecidableEq, Repr

/-- `ForecastUploadResponse` (schemas.py). -/
structure UploadResponse where
  success : Bool
  data : List ForecastItem
  confidence : ℚ
  notes : Option String
  template_matched : Bool
  template_name : Option String
deriving DecidableEq, Repr

/-- The cascade stages of `upload_forecast` that touch the document. -/
inductive Stage where
  | fixedFormat
  | templateMatch
  | verification
  | fullAnalysis
deriving DecidableEq, Repr

/-- One `update_daily_metrics` call (its keyword arguments). -/
structure MetricsUpdate where
  template_hit : Bool
  llm_called : Bool
  cost_saved : ℚ
deriving DecidableEq, Repr

/-- The stage-result environment of one `upload_forecast` run: each
field is the value the corresponding collaborator returns on this
document (`is_cnc_forecast_format`, `parse_cnc_forecast`,
the template table, `generate_fingerprint`, `parse_with_mapping` on
the matched template's mapping, `verify_template_result`,
`analyze_excel_image`). Exceptions are not modelled: every stage
completes with its value. -/
structure UploadEnv where
  isCnc : Bool
  cncResult : CncParseResult
  templates : List Template
  fingerprint : String
  mappingData : List MappedRecord
  verification : Verification
  analysis : Analysis
deriving DecidableEq, Repr

/-- What one `upload_forecast` run produced: the HTTP response body,
the stages that were invoked in order, the `update_daily_metrics`
calls and the `record_usage` calls (template id, match score, success;
the wall-clock latency argument is not modelled). -/
structure UploadOutcome where
  response : UploadResponse
  stages : List Stage
  metrics : List MetricsUpdate
  usages : List (ℕ × ℚ × Bool)
deriving DecidableEq, Repr

/-- Step 2 of `upload_forecast`: full LLM analysis
(`analyze_excel_image`), non-hit daily metric, response built from the
analysis result with `confidence` defaulting to 0.0 and `notes` to the
fixed Korean hint. -/
def fullAnalysisStage (env : UploadEnv) (stagesSoFar : List Stage) :
    UploadOutcome :=
  { response :=
      { success := true,
        data := env.analysis.data.map ForecastItem.ofMapped,
        confidence := env.analysis.confidence.getD 0,
        notes := some (env.analysis.notes.getD
          "LLM 분석 완료 - 템플릿 저장을 권장합니다"),
        template_matched := false,
        template_name := Option.none },
    stages := stagesSoFar ++ [Stage.fullAnalysis],
    metrics := [⟨false, true, 0⟩],
    usages := [] }

/-- `upload_forecast` (upload.py lines 42-154): fixed-format
short-circuit, then template matching with the ≥90 direct band, the
70-89 verification band (including the source's dead
`data = corrections` assignment), and the full-analysis fallback. -/
def upload_forecast (env : UploadEnv) : UploadOutcome :=
  if env.isCnc then
    { response :=
        { success := true,
          data := env.cncResult.data.map ForecastItem.ofCnc,
          confidence := env.cncResult.confidence,
          notes := some env.cncResult.notes,
          template_matched := true,
          template_name := some env.cncResult.template_name },
      stages := [Stage.fixedFormat],
      metrics := [⟨true, false, 3/100⟩],
      usages := [] }
  else
    let mt := find_matching_template env.templates env.fingerprint
    match mt.1 with
    | some t =>
      if mt.2 ≥ 90 then
        { response :=
            { success := true,
              data := env.mappingData.map ForecastItem.ofMapped,
              confidence := mt.2 / 100,
              notes := some ("템플릿 '" ++ t.name ++ "' 사용"),
              template_matched := true,
              template_name := some t.name },
          stages := [Stage.fixedFormat, Stage.templateMatch],
          metrics := [⟨true, false, 2/100⟩],
          usages := [(t.id, mt.2, true)] }
      else if mt.2 ≥ 70 then
        if env.verification.is_valid then
          { response :=
              { success := true,
                data := env.mappingData.map ForecastItem.ofMapped,
                confidence := env.verification.confidence.getD (4/5),
                notes := some "템플릿 + LLM 검증 완료",
                template_matched := true,
                template_name := some t.name },
            stages := [Stage.fixedFormat, Stage.templateMatch,
              Stage.verification],
            metrics := [⟨true, true, 0⟩],
            usages := [(t.id, mt.2, true)] }
        else
          let corrections := env.verification.corrections
          let _data := if corrections ≠ [] then corrections
                       else env.mappingData
          -- `_data` is never read again, exactly as in the source
          fullAnalysisStage env
            [Stage.fixedFormat, Stage.templateMatch, Stage.verification]
      else
        fullAnalysisStage env [Stage.fixedFormat, Stage.templateMatch]
    | Option.none =>
      fullAnalysisStage env [Stage.fixedFormat, Stage.templateMatch]

theorem updateFirst_find? (p : α → Bool) (f : α → α)
    (hf : ∀ a, p a = true → p (f a) = true) (l : List α) :
    (updateFirst p f l).find? p = (l.find? p).map f := by
  induction l with
  | nil => rfl
  | cons x xs ih =>
    by_cases hx : p x = true
    · simp [updateFirst, hx, List.find?, hf x hx]
    · simp only [Bool.not_eq_true] at hx
      simp [updateFirst, hx, List.find?, ih]

theorem mem_updateFirst {y : α} (p : α → Bool) (f : α → α) (l : List α)
    (hy : y ∈ updateFirst p f l) : y ∈ l ∨ ∃ x ∈ l, y = f x := by
  induction l with
  | nil => simp [updateFirst] at hy
  | cons x xs ih =>
    by_cases hx : p x = true
    · simp only [updateFirst, hx, if_pos] at hy
      rcases List.mem_cons.mp hy with h | h
      · exact Or.inr ⟨x, List.mem_cons_self .., h⟩
      · exact Or.inl (List.mem_cons_of_mem _ h)
    · simp only [Bool.not_eq_true] at hx
      simp only [updateFirst, hx] at hy
      rcases List.mem_cons.mp hy with h | h
      · exact Or.inl (h ▸ List.mem_cons_self ..)
      · rcases ih h with h' | ⟨z, hz, rfl⟩
        · exact Or.inl (List.mem_cons_of_mem _ h')
        · exact Or.inr ⟨z, List.mem_cons_of_mem _ hz, rfl⟩

theorem list_eq_of_filter_zip (l1 : List Char) : ∀ l2 : List Char,
    l1.length = l2.length →
    ((l1.zip l2).filter (fun ab => ab.1 = ab.2)).length = l1.length →
    l1 = l2 := by
  induction l1 with
  | nil =>
    intro l2 hlen _
    cases l2 with
    | nil => rfl
    | cons b bs => simp at hlen
  | cons a as ih =>
    intro l2 hlen h
    cases l2 with
    | nil => simp at hlen
    | cons b bs =>
      have hlen' : as.length = bs.length := by simpa using hlen
      by_cases hab : a = b
      · subst hab
        have h' : ((as.zip bs).filter (fun ab => ab.1 = ab.2)).length
            = as.length := by
          simpa [List.zip_cons_cons, List.filter_cons] using h
        rw [ih bs hlen' h']
      · exfalso
        have hle : ((as.zip bs).filter (fun ab => ab.1 = ab.2)).length
            ≤ (as.zip bs).length :=
          List.length_filter_le _ _
        have hzle : (as.zip bs).length ≤ as.length := by
          rw [List.length_zip]; omega
        have : ((a :: as).zip (b :: bs)).filter (fun ab => ab.1 = ab.2)
            = (as.zip bs).filter (fun ab => ab.1 = ab.2) := by
          simp [List.zip_cons_cons, List.filter_cons, hab]
        rw [this] at h
        simp only [List.length_cons] at h
        omega

theorem agreeCount_le_of_ne (f1 f2 : String) (h1 : f1.length = 16)
    (h2 : f2.length = 16) (hne : f1 ≠ f2) : agreeCount f1 f2 ≤ 15 := by
  have hl1 : f1.toList.length = 16 := h1
  have hl2 : f2.toList.length = 16 := h2
  by_contra hgt
  push_neg at hgt
  have hle : agreeCount f1 f2 ≤ 16 := by
    have hf := List.length_filter_le (fun ab : Char × Char => ab.1 = ab.2)
      (f1.toList.zip f2.toList)
    have hz : (f1.toList.zip f2.toList).length = 16 := by
      rw [List.length_zip, hl1, hl2]; omega
    unfold agreeCount
    omega
  have heq : agreeCount f1 f2 = 16 := by omega
  have hfull : ((f1.toList.zip f2.toList).filter
      (fun ab => ab.1 = ab.2)).length = f1.toList.length := by
    have := heq
    unfold agreeCount at this
    omega
  have hlists : f1.toList = f2.toList :=
    list_eq_of_filter_zip f1.toList f2.toList (by omega) hfull
  apply hne
  cases f1
  cases f2
  exact congrArg String.mk (by simpa [String.toList] using hlists)

/-- C10: on the degraded (no-document) path, the similarity of two
distinct 16-character fingerprints is `100 * agree / 16`, hence at most
93.75 and never 100; and a non-identical pair (15 agreeing positions)
can still score at least 90. -/
theorem C10_degraded_similarity :
    (∀ f1 f2 : String, f1.length = 16 → f2.length = 16 → f1 ≠ f2 →
      calculate_similarity f1 f2 = 100 * (agreeCount f1 f2 : ℚ) / 16 ∧
      agreeCount f1 f2 ≤ 15 ∧
      calculate_similarity f1 f2 ≤ 375/4 ∧
      calculate_similarity f1 f2 ≠ 100) ∧
    ∃ g1 g2 : String, g1 ≠ g2 ∧ g1.length = 16 ∧ g2.length = 16 ∧
      90 ≤ calculate_similarity g1 g2 := by
  constructor
  · intro f1 f2 h1 h2 hne
    have hl1 : f1.toList.length = 16 := h1
    have hsim : calculate_similarity f1 f2
        = 100 * (agreeCount f1 f2 : ℚ) / 16 := by
      rw [calculate_similarity, if_neg hne, hl1]
      push_cast
      ring
    have hle : agreeCount f1 f2 ≤ 15 := agreeCount_le_of_ne f1 f2 h1 h2 hne
    have hleQ : (agreeCount f1 f2 : ℚ) ≤ 15 := by exact_mod_cast hle
    refine ⟨hsim, hle, ?_, ?_⟩
    · rw [hsim]; linarith
    · rw [hsim]; intro hcon
      have : (agreeCount f1 f2 : ℚ) = 16 := by linarith
      linarith
  · refine ⟨"aaaaaaaaaaaaaaaa", "aaaaaaaaaaaaaaab", by decide, rfl, rfl, ?_⟩
    have hne : ("aaaaaaaaaaaaaaaa" : String) ≠ "aaaaaaaaaaaaaaab" := by decide
    have hag : agreeCount "aaaaaaaaaaaaaaaa" "aaaaaaaaaaaaaaab" = 15 := by decide
    have hl : ("aaaaaaaaaaaaaaaa" : String).toList.length = 16 := rfl
    rw [calculate_similarity, if_neg hne, hag, hl]
    norm_num

/-- Witness for C10 at a concrete pair of distinct 16-character
fingerprints. -/
theorem C10_degraded_similarity_witness :
    calculate_similarity "0123456789abcdef" "0123456789abcdeg" =
      100 * (agreeCount "0123456789abcdef" "0123456789abcdeg" : ℚ) / 16 ∧
    agreeCount "0123456789abcdef" "0123456789abcdeg" ≤ 15 ∧
    calculate_similarity "0123456789abcdef" "0123456789abcdeg" ≤ 375/4 ∧
    calculate_similarity "0123456789abcdef" "0123456789abcdeg" ≠ 100 :=
  C10_degraded_similarity.1 _ _ rfl rfl (by decide)

theorem recordUsageUpdate_id (s : Bool) (t : Template) :
    (recordUsageUpdate s t).id = t.id := by
  unfold recordUsageUpdate
  dsimp only
  split <;> split <;> rfl

theorem recordUsageUpdate_use_count (s : Bool) (t : Template) :
    (recordUsageUpdate s t).use_count = t.use_count + 1 := by
  unfold recordUsageUpdate
  dsimp only
  split <;> split <;> rfl

theorem recordUsageUpdate_accuracy (s : Bool) (t : Template) :
    (recordUsageUpdate s t).accuracy_rate =
      (if s then t.accuracy_rate * (9/10) + 1 * (1/10)
       else t.accuracy_rate * (9/10) + 0 * (1/10)) := by
  unfold recordUsageUpdate
  dsimp only
  split <;> split <;> rfl

theorem recordUsageUpdate_is_active (s : Bool) (t : Template) :
    (recordUsageUpdate s t).is_active =
      (if (recordUsageUpdate s t).accuracy_rate <
          TEMPLATE_AUTO_DISABLE_THRESHOLD then false else t.is_active) := by
  rw [recordUsageUpdate_accuracy]
  unfold recordUsageUpdate
  dsimp only
  split <;> split <;> rfl

theorem recordUsageUpdate_active_mono (s : Bool) (t : Template)
    (h : (recordUsageUpdate s t).is_active = true) : t.is_active = true := by
  rw [recordUsageUpdate_is_active] at h
  by_cases hc : (recordUsageUpdate s t).accuracy_rate <
      TEMPLATE_AUTO_DISABLE_THRESHOLD
  · rw [if_pos hc] at h; exact absurd h (by simp)
  · rwa [if_neg hc] at h

/-- C2: one `record_usage` call EMA-updates the found template's
accuracy (`0.9a + 0.1` on success, `0.9a` on failure), increments its
use count, deactivates it exactly when the updated accuracy falls
below the auto-disable threshold, and never turns `is_active` back
on for any template. -/
theorem C2_record_usage_ema (db : TemplateDb) (template_id : ℕ)
    (score : ℚ) (succ : Bool) (ms : ℤ) :
    (∀ t, get_template db.templates template_id = some t →
      ∃ t', get_template
          (record_usage db template_id score succ ms).templates
          template_id = some t' ∧
        t'.accuracy_rate = (if succ then t.accuracy_rate * (9/10) + 1/10
          else t.accuracy_rate * (9/10)) ∧
        t'.use_count = t.use_count + 1 ∧
        t'.is_active =
          (if t'.accuracy_rate < TEMPLATE_AUTO_DISABLE_THRESHOLD
           then false else t.is_active)) ∧
    (∀ t' ∈ (record_usage db template_id score succ ms).templates,
      t'.is_active = true →
      ∃ t ∈ db.templates, t.id = t'.id ∧ t.is_active = true) := by
  constructor
  · intro t ht
    have hp : ∀ a : Template, (a.id == template_id) = true →
        ((recordUsageUpdate succ a).id == template_id) = true := by
      intro a ha
      rw [recordUsageUpdate_id]
      exact ha
    have hfind := updateFirst_find? (fun a : Template => a.id == template_id)
      (recordUsageUpdate succ) hp db.templates
    refine ⟨recordUsageUpdate succ t, ?_, ?_, ?_, ?_⟩
    · unfold get_template record_usage
      dsimp only
      rw [hfind]
      unfold get_template at ht
      rw [ht]
      rfl
    · rw [recordUsageUpdate_accuracy]
      cases succ <;> norm_num
    · exact recordUsageUpdate_use_count succ t
    · exact recordUsageUpdate_is_active succ t
  · intro t' ht' hact
    unfold record_usage at ht'
    dsimp only at ht'
    rcases mem_updateFirst _ _ _ ht' with h | ⟨x, hx, rfl⟩
    · exact ⟨t', h, rfl, hact⟩
    · exact ⟨x, hx, (recordUsageUpdate_id succ x).symm,
        recordUsageUpdate_active_mono succ x hact⟩

/-- Concrete template with accuracy 0.65 = 13/20, active. -/
def exTemplateC2 : Template := ⟨1, "T1", "fp-0.65-active", 13/20, 5, true⟩

/-- Concrete template with accuracy 0.65, already deactivated. -/
def exTemplateC2b : Template := ⟨1, "T1", "fp-0.65-off", 13/20, 5, false⟩

def exDbC2 : TemplateDb := ⟨[exTemplateC2], []⟩

def exDbC2b : TemplateDb := ⟨[exTemplateC2b], []⟩

/-- Witness for C2: from accuracy 0.65, one failure yields 0.585 and
deactivates; one success on an already-deactivated recipe yields 0.685
and does not reactivate it. -/
theorem C2_record_usage_ema_witness :
    (∃ t', get_template (record_usage exDbC2 1 80 false 10).templates 1
        = some t' ∧
      t'.accuracy_rate = 117/200 ∧ t'.is_active = false) ∧
    (∃ t', get_template (record_usage exDbC2b 1 80 true 10).templates 1
        = some t' ∧
      t'.accuracy_rate = 137/200 ∧ t'.is_active = false) := by
  constructor
  · obtain ⟨t', h1, h2, h3, h4⟩ :=
      (C2_record_usage_ema exDbC2 1 80 false 10).1 exTemplateC2 rfl
    have hacc : t'.accuracy_rate = 117/200 := by
      rw [h2]
      norm_num [exTemplateC2]
    refine ⟨t', h1, hacc, ?_⟩
    rw [h4, hacc]
    norm_num [TEMPLATE_AUTO_DISABLE_THRESHOLD, exTemplateC2]
  · obtain ⟨t', h1, h2, h3, h4⟩ :=
      (C2_record_usage_ema exDbC2b 1 80 true 10).1 exTemplateC2b rfl
    have hacc : t'.accuracy_rate = 137/200 := by
      rw [h2]
      norm_num [exTemplateC2b]
    refine ⟨t', h1, hacc, ?_⟩
    rw [h4, hacc]
    norm_num [TEMPLATE_AUTO_DISABLE_THRESHOLD, exTemplateC2b]

/-- Sheet for C4: period header "W1" at (1,2), model "M1" at (2,1),
and a planted negative quantity -5 at (2,2). -/
def exSheetC4 : Sheet := fun r c =>
  if r = 1 ∧ c = 2 then .str "W1"
  else if r = 2 ∧ c = 1 then .str "M1"
  else if r = 2 ∧ c = 2 then .int (-5)
  else .none

def exMappingC4 : CellMapping := ⟨1, 2, 1, 2, [], []⟩

/-- Counterexample to C4 as stated: a value cell holding -5 is NOT
discarded — `parse_with_mapping` emits a record with quantity -5. -/
theorem C4_counterexample :
    parse_with_mapping exSheetC4 2 2 exMappingC4 = [⟨"M1", "W1", -5⟩] ∧
    ¬ (∀ r ∈ parse_with_mapping exSheetC4 2 2 exMappingC4,
        0 < r.quantity) := by
  refine ⟨by decide, ?_⟩
  intro h
  have := h ⟨"M1", "W1", -5⟩ (by decide)
  simp at this

/-- `int(v)` of a value cell that passed
`isinstance(quantity, (int, float))`: pass-through for integers,
truncation toward zero for floats, `none` for anything else. -/
def pyNumToInt : CellValue → Option ℤ
  | .int n => some n
  | .num q => some (truncQ q)
  | _ => Option.none

/-- C4 amended: every record emitted by `parse_with_mapping` takes its
quantity as the `int()` truncation of a truthy (nonzero) numeric value
cell. Zero-valued cells are discarded by truthiness, but negative
cells are emitted, fractional cells are truncated (7.5 emits 7), and a
truthy fractional cell inside (-1, 1) emits quantity 0. -/
theorem C4_quantity_filter_amended (sheet : Sheet) (maxRow maxCol : ℕ)
    (mapping : CellMapping) (r : MappedRecord)
    (hr : r ∈ parse_with_mapping sheet maxRow maxCol mapping) :
    ∃ row col, pyTruthy (sheet row col) = true ∧
      pyNumToInt (sheet row col) = some r.quantity := by
  unfold parse_with_mapping at hr
  rw [List.mem_flatMap] at hr
  obtain ⟨row, -, hrow⟩ := hr
  dsimp only at hrow
  split at hrow
  · simp at hrow
  · split at hrow
    · simp at hrow
    · rw [List.mem_filterMap] at hrow
      obtain ⟨cd, -, hcd⟩ := hrow
      rcases hcell : sheet row cd.1 with - | n | q | s <;>
        rw [hcell] at hcd
      · simp at hcd
      · simp only [] at hcd
        split at hcd
        · rename_i hn
          cases hcd
          exact ⟨row, cd.1, by simp [hcell, pyTruthy, hn],
            by simp [hcell, pyNumToInt]⟩
        · simp at hcd
      · simp only [] at hcd
        split at hcd
        · rename_i hq
          cases hcd
          exact ⟨row, cd.1, by simp [hcell, pyTruthy, hq],
            by simp [hcell, pyNumToInt]⟩
        · simp at hcd
      · simp at hcd

/-- 7.5 as an exact rational (raw constructor, so it evaluates by
kernel reduction). -/
def q15o2 : ℚ := ⟨15, 2, by norm_num, by norm_num⟩

/-- 0.5 as an exact rational (raw constructor). -/
def q1o2 : ℚ := ⟨1, 2, by norm_num, by norm_num⟩

/-- Sheet for the C4 witness: a float value cell holding 7.5. -/
def exSheetC4b : Sheet := fun r c =>
  if r = 1 ∧ c = 2 then .str "W1"
  else if r = 2 ∧ c = 1 then .str "M1"
  else if r = 2 ∧ c = 2 then .num q15o2
  else .none

/-- Sheet for the C4 witness: a truthy float value cell holding 0.5. -/
def exSheetC4c : Sheet := fun r c =>
  if r = 1 ∧ c = 2 then .str "W1"
  else if r = 2 ∧ c = 1 then .str "M1"
  else if r = 2 ∧ c = 2 then .num q1o2
  else .none

/-- Witness for amended C4: a cell holding 7.5 is emitted with
quantity 7, and a truthy cell holding 0.5 is emitted with quantity 0 —
both quantities are `int()` truncations of truthy numeric cells. -/
theorem C4_quantity_filter_amended_witness :
    q15o2 = 15/2 ∧ q1o2 = 1/2 ∧
    (⟨"M1", "W1", 7⟩ : MappedRecord) ∈
      parse_with_mapping exSheetC4b 2 2 exMappingC4 ∧
    (⟨"M1", "W1", 0⟩ : MappedRecord) ∈
      parse_with_mapping exSheetC4c 2 2 exMappingC4 ∧
    (∃ row col, pyTruthy (exSheetC4b row col) = true ∧
      pyNumToInt (exSheetC4b row col) = some 7) ∧
    (∃ row col, pyTruthy (exSheetC4c row col) = true ∧
      pyNumToInt (exSheetC4c row col) = some 0) :=
  ⟨by rw [q15o2, Rat.mk'_eq_divInt, Rat.divInt_eq_div]; norm_num,
   by rw [q1o2, Rat.mk'_eq_divInt, Rat.divInt_eq_div]; norm_num,
   by decide, by decide,
   C4_quantity_filter_amended exSheetC4b 2 2 exMappingC4
     ⟨"M1", "W1", 7⟩ (by decide),
   C4_quantity_filter_amended exSheetC4c 2 2 exMappingC4
     ⟨"M1", "W1", 0⟩ (by decide)⟩

theorem cncProcessRow_fst (sheet : Sheet) (mc pc : ℕ)
    (dcs : List (ℕ × String)) (row : ℕ) (cur : Option String) :
    (cncProcessRow sheet mc pc dcs row cur).1 =
      (if pyTruthy (sheet row mc) then
        (if skipKeywords.any
            (fun kw => pyIn (pyLower (pyStrip (pyStr (sheet row mc)))) kw) then cur
         else some (pyStrip (pyStr (sheet row mc))))
       else cur) := by
  unfold cncProcessRow
  dsimp only
  split
  · rename_i heq
    exact heq.symm
  · split
    · rfl
    · split <;> split <;> rfl

theorem cncProcessRow_snd_empty_process (sheet : Sheet) (mc pc : ℕ)
    (dcs : List (ℕ × String)) (row : ℕ) (cur : Option String)
    (hproc : (if pyTruthy (sheet row pc) then pyStrip (pyStr (sheet row pc))
              else "") = "") :
    (cncProcessRow sheet mc pc dcs row cur).2 = [] := by
  unfold cncProcessRow
  dsimp only
  split
  · rfl
  · split
    · rfl
    · rfl

theorem cncProcessRow_snd_empty_model (sheet : Sheet) (mc pc : ℕ)
    (dcs : List (ℕ × String)) (row : ℕ) (cur : Option String)
    (h : (cncProcessRow sheet mc pc dcs row cur).1 = some "") :
    (cncProcessRow sheet mc pc dcs row cur).2 = [] := by
  rw [cncProcessRow_fst] at h
  unfold cncProcessRow
  dsimp only
  rw [h]
  rfl

/-- Sheet for C5: row 1 is a normal data row (model "M1", process
"CNC", quantity 5); row 2 is a "Total" row that nevertheless has a
nonempty process cell and a quantity 7. -/
def exSheetC5 : Sheet := fun r c =>
  if r = 1 ∧ c = 1 then .str "M1"
  else if r = 1 ∧ c = 2 then .str "CNC"
  else if r = 1 ∧ c = 4 then .int 5
  else if r = 2 ∧ c = 1 then .str "Total"
  else if r = 2 ∧ c = 2 then .str "CNC"
  else if r = 2 ∧ c = 4 then .int 7
  else .none

/-- Counterexample to C5 as stated: on a row whose model cell matches
the skip keyword "total", the row's values are NOT ignored — the data
loop emits the row's record (under the carried-forward model "M1"). -/
theorem C5_counterexample :
    cncDataLoop exSheetC5 1 2 [(4, "2025-11-17")] [1, 2] Option.none =
      [⟨"M1", "CNC", "2025-11-17", 5⟩, ⟨"M1", "CNC", "2025-11-17", 7⟩] ∧
    skipKeywords.any
      (fun kw => pyIn (pyLower (pyStrip (pyStr (exSheetC5 2 1)))) kw) = true ∧
    (cncProcessRow exSheetC5 1 2 [(4, "2025-11-17")] 2 (some "M1")).2 ≠ [] := by
  refine ⟨by decide, by decide, by decide⟩

/-- C5 amended: a skip-keyword model cell leaves the carried model
unchanged, a blank model cell carries it forward, a row whose process
cell strips to empty emits nothing, and while the carried model is the
falsy empty string (a whitespace-only model cell strips to `""`) every
row is skipped by `if not current_model:` — but a skip-keyword row
with a NONEMPTY carried model and a nonempty process cell is still
processed: its values are emitted under the carried-forward model,
not ignored. -/
theorem C5_skip_keyword_amended (sheet : Sheet) (mc pc : ℕ)
    (dcs : List (ℕ × String)) (row : ℕ) (cur : Option String) :
    (pyTruthy (sheet row mc) = true →
      skipKeywords.any
        (fun kw => pyIn (pyLower (pyStrip (pyStr (sheet row mc)))) kw) = true →
      (cncProcessRow sheet mc pc dcs row cur).1 = cur) ∧
    (pyTruthy (sheet row mc) = false →
      (cncProcessRow sheet mc pc dcs row cur).1 = cur) ∧
    ((if pyTruthy (sheet row pc) then pyStrip (pyStr (sheet row pc))
      else "") = "" →
      (cncProcessRow sheet mc pc dcs row cur).2 = []) ∧
    ((cncProcessRow sheet mc pc dcs row cur).1 = some "" →
      (cncProcessRow sheet mc pc dcs row cur).2 = []) ∧
    (∀ m, cur = some m → m ≠ "" →
      pyTruthy (sheet row mc) = true →
      skipKeywords.any
        (fun kw => pyIn (pyLower (pyStrip (pyStr (sheet row mc)))) kw) = true →
      ∀ process, process = (if pyTruthy (sheet row pc) then
          pyStrip (pyStr (sheet row pc)) else "") →
      process ≠ "" →
      (cncProcessRow sheet mc pc dcs row cur).2 =
        dcs.filterMap (fun cd =>
          match parseQuantity (sheet row cd.1) with
          | some q => if q > 0 then some ⟨m, process, cd.2, q⟩
                      else Option.none
          | Option.none => Option.none)) := by
  refine ⟨?_, ?_, ?_, ?_, ?_⟩
  · intro ht hskip
    rw [cncProcessRow_fst, ht]
    simp only [if_true, hskip]
  · intro ht
    rw [cncProcessRow_fst, ht]
    simp only [Bool.false_eq_true, if_false]
  · intro hproc
    exact cncProcessRow_snd_empty_process sheet mc pc dcs row cur hproc
  · intro hmodel
    exact cncProcessRow_snd_empty_model sheet mc pc dcs row cur hmodel
  · intro m hm hmne ht hskip process hp hne
    have hnew : (if pyTruthy (sheet row mc) then
        (if skipKeywords.any
            (fun kw => pyIn (pyLower (pyStrip (pyStr (sheet row mc)))) kw) then cur
         else some (pyStrip (pyStr (sheet row mc))))
       else cur) = some m := by
      rw [ht]
      simp only [if_true, hskip, hm]
    unfold cncProcessRow
    dsimp only
    rw [hnew]
    dsimp only
    rw [if_neg hmne]
    simp only [← hp]
    rw [if_neg hne]

/-- Sheet for the C5 witness's empty-model case: a truthy
whitespace-only model cell, a nonempty process cell and a value 9. -/
def exSheetC5b : Sheet := fun r c =>
  if r = 1 ∧ c = 1 then .str " "
  else if r = 1 ∧ c = 2 then .str "CNC"
  else if r = 1 ∧ c = 4 then .int 9
  else .none

/-- Witness for amended C5: at the "Total" row the carried model "M1"
survives and the row's values are emitted under it; and a
whitespace-only model cell yields the carried model `""`, under which
the row is skipped despite its nonempty process cell. -/
theorem C5_skip_keyword_amended_witness :
    (cncProcessRow exSheetC5 1 2 [(4, "2025-11-17")] 2 (some "M1")).1
      = some "M1" ∧
    (cncProcessRow exSheetC5 1 2 [(4, "2025-11-17")] 2 (some "M1")).2 =
      [(4, "2025-11-17")].filterMap (fun cd =>
        match parseQuantity (exSheetC5 2 cd.1) with
        | some q => if q > 0 then some ⟨"M1", "CNC", cd.2, q⟩
                    else Option.none
        | Option.none => Option.none) ∧
    (cncProcessRow exSheetC5b 1 2 [(4, "2025-11-17")] 1 Option.none).1
      = some "" ∧
    (cncProcessRow exSheetC5b 1 2 [(4, "2025-11-17")] 1 Option.none).2
      = [] := by
  refine ⟨?_, ?_, by decide, ?_⟩
  · exact (C5_skip_keyword_amended exSheetC5 1 2 [(4, "2025-11-17")] 2
      (some "M1")).1 (by decide) (by decide)
  · exact (C5_skip_keyword_amended exSheetC5 1 2 [(4, "2025-11-17")] 2
      (some "M1")).2.2.2.2 "M1" rfl (by decide) (by decide) (by decide)
      "CNC" (by decide) (by decide)
  · exact (C5_skip_keyword_amended exSheetC5b 1 2 [(4, "2025-11-17")] 1
      Option.none).2.2.2.1 (by decide)

theorem mem_pyRange (a s b : ℕ) :
    a ∈ pyRange s b ↔ s ≤ a ∧ a < s + (b - s) := by
  unfold pyRange
  exact List.mem_range'_1

/-- The detection rule as the claim words it ("within the first 6 rows
and 20 columns ... and some cell within the first 6 rows contains
week"); stated from the claim for comparison with
`is_cnc_forecast_format`. -/
def claimed_is_cnc_forecast_format (sheet : Sheet) (maxRow maxCol : ℕ) :
    Bool :=
  let rows := pyRange 1 (min 6 maxRow + 1)
  let cols := pyRange 1 (min 20 maxCol + 1)
  (rows.any (fun r => cols.any (fun c =>
    pyTruthy (sheet r c) &&
      (pyIn (pyLower (pyStr (sheet r c))) "forecast" ||
       pyIn (pyLower (pyStr (sheet r c))) "cnc")))) &&
  (rows.any (fun r => (pyRange 1 (maxCol + 1)).any (fun c =>
    pyTruthy (sheet r c) && pyIn (pyLower (pyStr (sheet r c))) "week")))

/-- Sheet for C6: the only marked cell sits in row 6, inside the
claim's scan region but outside the code's. -/
def exSheetC6 : Sheet := fun r c =>
  if r = 6 ∧ c = 1 then .str "CNC Forecast week" else .none

/-- Counterexample to C6 as stated: the code scans only the first 5
rows and 19 columns (`range(1, min(6, ...))` and
`range(1, min(20, ...))`), so a document whose markers sit in row 6 is
NOT detected although the claim's 6-row rule says it is. -/
theorem C6_counterexample :
    claimed_is_cnc_forecast_format exSheetC6 6 1 = true ∧
    is_cnc_forecast_format exSheetC6 6 1 = false := by
  exact ⟨by decide, by decide⟩

/-- C6 amended: detection returns true iff, within the first 5 rows
and 19 columns, some truthy cell's lowercased text contains "forecast"
or "cnc" and some truthy cell in the same region contains "week". -/
theorem C6_detection_amended (sheet : Sheet) (maxRow maxCol : ℕ) :
    is_cnc_forecast_format sheet maxRow maxCol = true ↔
      ((∃ r c, 1 ≤ r ∧ r ≤ min 5 maxRow ∧ 1 ≤ c ∧ c ≤ min 19 maxCol ∧
          pyTruthy (sheet r c) = true ∧
          (pyIn (pyLower (pyStr (sheet r c))) "forecast" = true ∨
           pyIn (pyLower (pyStr (sheet r c))) "cnc" = true)) ∧
       (∃ r c, 1 ≤ r ∧ r ≤ min 5 maxRow ∧ 1 ≤ c ∧ c ≤ min 19 maxCol ∧
          pyTruthy (sheet r c) = true ∧
          pyIn (pyLower (pyStr (sheet r c))) "week" = true)) := by
  unfold is_cnc_forecast_format
  simp only [List.any_eq_true, Bool.and_eq_true, Bool.or_eq_true,
    mem_pyRange]
  constructor
  · rintro ⟨⟨r, ⟨h1r, h2r⟩, c, ⟨h1c, h2c⟩, ht, hm⟩,
      ⟨r', ⟨h1r', h2r'⟩, c', ⟨h1c', h2c'⟩, ht', hw⟩⟩
    exact ⟨⟨r, c, h1r, by omega, h1c, by omega, ht, hm⟩,
      ⟨r', c', h1r', by omega, h1c', by omega, ht', hw⟩⟩
  · rintro ⟨⟨r, c, h1r, h2r, h1c, h2c, ht, hm⟩,
      ⟨r', c', h1r', h2r', h1c', h2c', ht', hw⟩⟩
    exact ⟨⟨r, ⟨h1r, by omega⟩, c, ⟨h1c, by omega⟩, ht, hm⟩,
      ⟨r', ⟨h1r', by omega⟩, c', ⟨h1c', by omega⟩, ht', hw⟩⟩

/-- Sheet detected by the (amended) rule: "forecast" at (1,1), "week"
at (2,3). -/
def exSheetC6b : Sheet := fun r c =>
  if r = 1 ∧ c = 1 then .str "Forecast CNC"
  else if r = 2 ∧ c = 3 then .str "Week plan"
  else .none

/-- Witness for amended C6 at a concrete detected sheet. -/
theorem C6_detection_amended_witness :
    is_cnc_forecast_format exSheetC6b 5 19 = true :=
  (C6_detection_amended exSheetC6b 5 19).mpr
    ⟨⟨1, 1, by decide, by decide, by decide, by decide, by decide,
      Or.inl (by decide)⟩,
     ⟨2, 3, by decide, by decide, by decide, by decide, by decide,
      by decide⟩⟩

/-- The anchor-row collection as the claim words it ("every row in the
first 30 rows holding a cell containing both marker tokens"); stated
from the claim for comparison with `forecastRows`. -/
def claimed_forecast_rows (sheet : Sheet) (maxRow maxCol : ℕ) : List ℕ :=
  (pyRange 1 (min 30 maxRow + 1)).filter (fun r =>
    (pyRange 1 (maxCol + 1)).any (fun c =>
      pyTruthy (sheet r c) &&
        (pyIn (pyStrip (pyLower (pyStr (sheet r c)))) "forecast" &&
         pyIn (pyStrip (pyLower (pyStr (sheet r c)))) "cnc")))

/-- The data-section start as the claim words it. -/
def claimed_data_section_start (sheet : Sheet) (maxRow maxCol : ℕ) : ℕ :=
  match claimed_forecast_rows sheet maxRow maxCol with
  | [] => 1
  | [r] => r
  | _ :: r :: _ => r

/-- Sheet for C7: anchor cells at rows 29 and 30. -/
def exSheetC7 : Sheet := fun r c =>
  if (r = 29 ∨ r = 30) ∧ c = 1 then .str "Forecast CNC" else .none

/-- Counterexample to C7 as stated: the code scans
`range(1, min(30, max_row+1))`, i.e. only the first 29 rows, so with
anchors at rows 29 and 30 it sees a single anchor and starts at row
29, while the claim's first-30-rows rule starts at the second anchor,
row 30. -/
theorem C7_counterexample :
    data_section_start exSheetC7 30 1 = 29 ∧
    claimed_data_section_start exSheetC7 30 1 = 30 ∧
    data_section_start exSheetC7 30 1 ≠
      claimed_data_section_start exSheetC7 30 1 := by
  refine ⟨by decide, by decide, by decide⟩

/-- C7 amended: the anchor list collects exactly the rows of the first
29 rows (and first 19 columns) holding a truthy cell whose lowercased
stripped text contains both "forecast" and "cnc", in increasing order;
the data section starts at the second anchor when there are two or
more, at the sole anchor when there is one, and at row 1 otherwise. -/
theorem C7_anchor_rows_amended (sheet : Sheet) (maxRow maxCol : ℕ) :
    (∀ r, r ∈ forecastRows sheet maxRow maxCol ↔
      (1 ≤ r ∧ r ≤ min 29 maxRow ∧ ∃ c, 1 ≤ c ∧ c ≤ min 19 maxCol ∧
        pyTruthy (sheet r c) = true ∧
        pyIn (pyStrip (pyLower (pyStr (sheet r c)))) "forecast" = true ∧
        pyIn (pyStrip (pyLower (pyStr (sheet r c)))) "cnc" = true)) ∧
    (forecastRows sheet maxRow maxCol).Pairwise (· < ·) ∧
    (forecastRows sheet maxRow maxCol = [] →
      data_section_start sheet maxRow maxCol = 1) ∧
    (∀ r, forecastRows sheet maxRow maxCol = [r] →
      data_section_start sheet maxRow maxCol = r) ∧
    (∀ r1 r2 rest, forecastRows sheet maxRow maxCol = r1 :: r2 :: rest →
      data_section_start sheet maxRow maxCol = r2) := by
  refine ⟨?_, ?_, ?_, ?_, ?_⟩
  · intro r
    unfold forecastRows
    rw [List.mem_filter]
    simp only [List.any_eq_true, Bool.and_eq_true, mem_pyRange]
    constructor
    · rintro ⟨⟨h1r, h2r⟩, c, ⟨h1c, h2c⟩, ht, hf, hc⟩
      exact ⟨h1r, by omega, c, h1c, by omega, ht, hf, hc⟩
    · rintro ⟨h1r, h2r, c, h1c, h2c, ht, hf, hc⟩
      exact ⟨⟨h1r, by omega⟩, c, ⟨h1c, by omega⟩, ht, hf, hc⟩
  · unfold forecastRows pyRange
    exact (List.pairwise_lt_range' _ _).filter _
  · intro h
    unfold data_section_start
    rw [h]
  · intro r h
    unfold data_section_start
    rw [h]
  · intro r1 r2 rest h
    unfold data_section_start
    rw [h]

/-- Sheet matching the spec's end-to-end scenario: anchor cells at
rows 3 and 11. -/
def exSheetC7b : Sheet := fun r c =>
  if (r = 3 ∨ r = 11) ∧ c = 1 then .str "Forecast CNC" else .none

/-- Witness for amended C7: with anchors at rows 3 and 11, the data
section starts at row 11 (the second anchor). -/
theorem C7_anchor_rows_amended_witness :
    data_section_start exSheetC7b 30 20 = 11 :=
  (C7_anchor_rows_amended exSheetC7b 30 20).2.2.2.2 3 11 [] (by decide)

/-- C8: for a truthy period-header cell whose stripped text matches
`MM/DD` with parsed month `m` and day `d`, the mapped date uses the
current year when `m ≥ current month - 1` and the next year otherwise. -/
theorem C8_year_inference (cy cm : ℤ) (v : CellValue) (m d : ℕ)
    (ht : pyTruthy v = true)
    (hmatch : matchMMDD (pyStrip (pyStr v)).toList = some (m, d)) :
    ((m : ℤ) ≥ cm - 1 →
      mapDateCell cy cm v =
        some (toString cy ++ "-" ++ pad2 m ++ "-" ++ pad2 d)) ∧
    ((m : ℤ) < cm - 1 →
      mapDateCell cy cm v =
        some (toString (cy + 1) ++ "-" ++ pad2 m ++ "-" ++ pad2 d)) := by
  unfold mapDateCell
  rw [if_pos ht, hmatch]
  dsimp only
  constructor
  · intro hge
    rw [if_pos hge]
  · intro hlt
    rw [if_neg (not_le.mpr hlt)]

/-- Witness for C8: read in month 12 of 2025, "01/15" resolves to
2026-01-15 (next year) and "12/10" to 2025-12-10 (current year). -/
theorem C8_year_inference_witness :
    mapDateCell 2025 12 (.str "01/15") = some "2026-01-15" ∧
    mapDateCell 2025 12 (.str "12/10") = some "2025-12-10" := by
  have h1 := (C8_year_inference 2025 12 (.str "01/15") 1 15
    (by decide) (by decide)).2 (by decide)
  have h2 := (C8_year_inference 2025 12 (.str "12/10") 12 10
    (by decide) (by decide)).1 (by decide)
  rw [h1, h2]
  exact ⟨by decide, by decide⟩

theorem bestTemplateFold_nil (fp : String) (acc : Option Template × ℚ) :
    bestTemplateFold fp [] acc = acc := rfl

theorem bestTemplateFold_cons (fp : String) (t : Template)
    (ts : List Template) (acc : Option Template × ℚ) :
    bestTemplateFold fp (t :: ts) acc =
      bestTemplateFold fp ts
        (if calculate_similarity fp t.fingerprint > acc.2
         then (some t, calculate_similarity fp t.fingerprint) else acc) :=
  rfl

theorem bestTemplateFold_snd_le (fp : String) :
    ∀ (l : List Template) (acc : Option Template × ℚ),
    acc.2 ≤ (bestTemplateFold fp l acc).2 := by
  intro l
  induction l with
  | nil => intro acc; rw [bestTemplateFold_nil]
  | cons u us ih =>
    intro acc
    rw [bestTemplateFold_cons]
    by_cases h : calculate_similarity fp u.fingerprint > acc.2
    · rw [if_pos h]
      exact le_trans (le_of_lt h)
        (ih (some u, calculate_similarity fp u.fingerprint))
    · rw [if_neg h]
      exact ih acc

theorem bestTemplateFold_le_of_mem (fp : String) :
    ∀ (l : List Template) (acc : Option Template × ℚ) (t : Template),
    t ∈ l →
    calculate_similarity fp t.fingerprint ≤ (bestTemplateFold fp l acc).2 := by
  intro l
  induction l with
  | nil => intro acc t h; simp at h
  | cons u us ih =>
    intro acc t h
    rw [bestTemplateFold_cons]
    rcases List.mem_cons.mp h with rfl | h'
    · by_cases hgt : calculate_similarity fp t.fingerprint > acc.2
      · rw [if_pos hgt]
        exact bestTemplateFold_snd_le fp us _
      · rw [if_neg hgt]
        push_neg at hgt
        exact le_trans hgt (bestTemplateFold_snd_le fp us acc)
    · exact ih _ t h'

theorem bestTemplateFold_attain (fp : String) :
    ∀ (l : List Template) (acc : Option Template × ℚ),
    bestTemplateFold fp l acc = acc ∨
    ∃ t ∈ l, bestTemplateFold fp l acc =
      (some t, calculate_similarity fp t.fingerprint) := by
  intro l
  induction l with
  | nil => intro acc; left; rfl
  | cons u us ih =>
    intro acc
    rw [bestTemplateFold_cons]
    by_cases h : calculate_similarity fp u.fingerprint > acc.2
    · rw [if_pos h]
      rcases ih (some u, calculate_similarity fp u.fingerprint) with
        heq | ⟨t, ht, heq⟩
      · right
        exact ⟨u, List.mem_cons_self .., heq⟩
      · right
        exact ⟨t, List.mem_cons_of_mem _ ht, heq⟩
    · rw [if_neg h]
      rcases ih acc with heq | ⟨t, ht, heq⟩
      · left
        exact heq
      · right
        exact ⟨t, List.mem_cons_of_mem _ ht, heq⟩

/-- C3: template matching returns an active exactly-matching template
with score 100 when one exists; otherwise it returns a maximum-scoring
active template with its score when some active template reaches the
70-point threshold, and no match when every active template scores
below 70. -/
theorem C3_find_matching_template (templates : List Template)
    (fp : String) :
    ((∃ t ∈ templates, t.is_active = true ∧ t.fingerprint = fp) →
      (find_matching_template templates fp).2 = 100 ∧
      ∃ t, (find_matching_template templates fp).1 = some t ∧
        t.is_active = true ∧ t.fingerprint = fp) ∧
    ((¬ ∃ t ∈ templates, t.is_active = true ∧ t.fingerprint = fp) →
      ((find_matching_template templates fp).2 ≥ 70 →
        ∃ t ∈ templates.filter (·.is_active),
          find_matching_template templates fp =
            (some t, calculate_similarity fp t.fingerprint) ∧
          ∀ u ∈ templates.filter (·.is_active),
            calculate_similarity fp u.fingerprint ≤
              calculate_similarity fp t.fingerprint) ∧
      ((∀ u ∈ templates.filter (·.is_active),
          calculate_similarity fp u.fingerprint < 70) →
        find_matching_template templates fp = (Option.none, 0)) ∧
      ((∃ u ∈ templates.filter (·.is_active),
          70 ≤ calculate_similarity fp u.fingerprint) →
        (find_matching_template templates fp).2 ≥ 70)) := by
  have h70 : TEMPLATE_MIN_CONFIDENCE * 100 = 70 := by
    norm_num [TEMPLATE_MIN_CONFIDENCE]
  constructor
  · rintro ⟨t, ht, hact, hfp⟩
    have hex : ∃ a ∈ templates,
        (fun t : Template => t.fingerprint == fp && t.is_active) a = true :=
      ⟨t, ht, by simp [hfp, hact]⟩
    have hsome := List.find?_isSome.mpr hex
    obtain ⟨u, hu⟩ := Option.isSome_iff_exists.mp hsome
    have hpu := List.find?_some hu
    simp only [Bool.and_eq_true, beq_iff_eq] at hpu
    unfold find_matching_template
    rw [hu]
    exact ⟨rfl, u, rfl, hpu.2, hpu.1⟩
  · intro hne
    have hfindnone : templates.find?
        (fun t => t.fingerprint == fp && t.is_active) = Option.none := by
      rw [List.find?_eq_none]
      intro x hx hpx
      apply hne
      simp only [Bool.and_eq_true, beq_iff_eq] at hpx
      exact ⟨x, hx, hpx.2, hpx.1⟩
    unfold find_matching_template
    rw [hfindnone]
    simp only [h70]
    refine ⟨?_, ?_, ?_⟩
    · intro hge
      by_cases hb : (bestTemplateFold fp (templates.filter (·.is_active))
          (Option.none, 0)).2 ≥ 70
      · rw [if_pos hb] at hge ⊢
        rcases bestTemplateFold_attain fp
            (templates.filter (·.is_active)) (Option.none, 0) with
          heq | ⟨t, ht, heq⟩
        · rw [heq] at hb
          norm_num at hb
        · refine ⟨t, ht, heq, ?_⟩
          intro u hu
          have hle := bestTemplateFold_le_of_mem fp
            (templates.filter (·.is_active)) (Option.none, 0) u hu
          rw [heq] at hle
          exact hle
      · rw [if_neg hb] at hge
        norm_num at hge
    · intro hall
      by_cases hb : (bestTemplateFold fp (templates.filter (·.is_active))
          (Option.none, 0)).2 ≥ 70
      · exfalso
        rcases bestTemplateFold_attain fp
            (templates.filter (·.is_active)) (Option.none, 0) with
          heq | ⟨t, ht, heq⟩
        · rw [heq] at hb
          norm_num at hb
        · have hlt := hall t ht
          rw [heq] at hb
          dsimp only at hb
          linarith
      · rw [if_neg hb]
    · rintro ⟨u, hu, h70u⟩
      have hb : (70:ℚ) ≤ (bestTemplateFold fp
          (templates.filter (·.is_active)) (Option.none, 0)).2 :=
        le_trans h70u (bestTemplateFold_le_of_mem fp _ _ u hu)
      rw [if_pos hb]
      exact hb

def exTemplateC3 : Template := ⟨7, "T7", "aaaaaaaaaaaaaaaa", 1, 0, true⟩

/-- Witness for C3 at a one-row table whose active template's
fingerprint equals the document's: exact match, score 100. -/
theorem C3_find_matching_template_witness :
    (find_matching_template [exTemplateC3] "aaaaaaaaaaaaaaaa").2 = 100 ∧
    ∃ t, (find_matching_template [exTemplateC3] "aaaaaaaaaaaaaaaa").1
        = some t ∧
      t.is_active = true ∧ t.fingerprint = "aaaaaaaaaaaaaaaa" :=
  (C3_find_matching_template [exTemplateC3] "aaaaaaaaaaaaaaaa").1
    ⟨exTemplateC3, List.mem_singleton.mpr rfl, rfl, rfl⟩

/-- C9: when fixed-format detection succeeds, the orchestrator returns
the fixed-format extraction result directly after recording one
recipe-hit metric; the template-match and full-analysis stages are
never invoked. -/
theorem C9_fixed_format_short_circuit (env : UploadEnv)
    (h : env.isCnc = true) :
    (upload_forecast env).stages = [Stage.fixedFormat] ∧
    Stage.templateMatch ∉ (upload_forecast env).stages ∧
    Stage.fullAnalysis ∉ (upload_forecast env).stages ∧
    (upload_forecast env).response.data =
      env.cncResult.data.map ForecastItem.ofCnc ∧
    (upload_forecast env).response.confidence =
      env.cncResult.confidence ∧
    (upload_forecast env).response.notes = some env.cncResult.notes ∧
    (upload_forecast env).response.template_matched = true ∧
    (upload_forecast env).response.template_name =
      some env.cncResult.template_name ∧
    (upload_forecast env).metrics =
      [⟨true, false, 3/100⟩] ∧
    (upload_forecast env).usages = [] := by
  unfold upload_forecast
  rw [if_pos h]
  refine ⟨rfl, by simp, by simp, rfl, rfl, rfl, rfl, rfl, rfl, rfl⟩

/-- Concrete environment whose document is detected as fixed-format. -/
def exEnvC9 : UploadEnv :=
  { isCnc := true,
    cncResult := ⟨[⟨"M1", "CNC", "2025-11-17", 120⟩], 1,
      "CNC Forecast 템플릿 파싱 완료 (1건)", "CNC_FORECAST_STANDARD"⟩,
    templates := [],
    fingerprint := "f",
    mappingData := [],
    verification := ⟨false, Option.none, []⟩,
    analysis := ⟨[], Option.none, Option.none⟩ }

/-- Witness for C9 at the concrete fixed-format environment. -/
theorem C9_fixed_format_short_circuit_witness :
    (upload_forecast exEnvC9).stages = [Stage.fixedFormat] ∧
    Stage.templateMatch ∉ (upload_forecast exEnvC9).stages ∧
    Stage.fullAnalysis ∉ (upload_forecast exEnvC9).stages ∧
    (upload_forecast exEnvC9).response.data =
      exEnvC9.cncResult.data.map ForecastItem.ofCnc ∧
    (upload_forecast exEnvC9).response.confidence =
      exEnvC9.cncResult.confidence ∧
    (upload_forecast exEnvC9).response.notes =
      some exEnvC9.cncResult.notes ∧
    (upload_forecast exEnvC9).response.template_matched = true ∧
    (upload_forecast exEnvC9).response.template_name =
      some exEnvC9.cncResult.template_name ∧
    (upload_forecast exEnvC9).metrics = [⟨true, false, 3/100⟩] ∧
    (upload_forecast exEnvC9).usages = [] :=
  C9_fixed_format_short_circuit exEnvC9 rfl

theorem upload_forecast_middle_invalid (env : UploadEnv) (t : Template)
    (score : ℚ) (hcnc : env.isCnc = false)
    (hmatch : find_matching_template env.templates env.fingerprint
      = (some t, score))
    (h90 : ¬ score ≥ 90) (h70 : score ≥ 70)
    (hinvalid : env.verification.is_valid = false) :
    upload_forecast env = fullAnalysisStage env
      [Stage.fixedFormat, Stage.templateMatch, Stage.verification] := by
  unfold upload_forecast
  simp only [hcnc, Bool.false_eq_true, if_false]
  rw [hmatch]
  dsimp only
  rw [if_neg h90, if_pos h70]
  simp only [hinvalid, Bool.false_eq_true, if_false]

/-- C1 amended: in the middle confidence band with a failed
verification, the corrected records are bound to a local variable but
never read (the assignment is dead); the final response takes its
record set, confidence and notes all from the stage-3 full analysis,
with `template_matched` false, regardless of whether corrections were
supplied. -/
theorem C1_middle_band_corrections_dead (env : UploadEnv) (t : Template)
    (score : ℚ) (hcnc : env.isCnc = false)
    (hmatch : find_matching_template env.templates env.fingerprint
      = (some t, score))
    (h90 : ¬ score ≥ 90) (h70 : score ≥ 70)
    (hinvalid : env.verification.is_valid = false) :
    upload_forecast env = fullAnalysisStage env
      [Stage.fixedFormat, Stage.templateMatch, Stage.verification] ∧
    (upload_forecast env).response.data =
      env.analysis.data.map ForecastItem.ofMapped ∧
    (upload_forecast env).response.confidence =
      env.analysis.confidence.getD 0 ∧
    (upload_forecast env).response.notes =
      some (env.analysis.notes.getD
        "LLM 분석 완료 - 템플릿 저장을 권장합니다") ∧
    (upload_forecast env).response.template_matched = false ∧
    (upload_forecast env).stages =
      [Stage.fixedFormat, Stage.templateMatch, Stage.verification,
        Stage.fullAnalysis] ∧
    (upload_forecast env).metrics = [⟨false, true, 0⟩] ∧
    (upload_forecast env).usages = [] := by
  have h := upload_forecast_middle_invalid env t score hcnc hmatch h90
    h70 hinvalid
  refine ⟨h, ?_, ?_, ?_, ?_, ?_, ?_, ?_⟩ <;> rw [h] <;> rfl

/-- Template whose 16-character fingerprint agrees with the document's
in 14 positions (similarity 87.5, the middle band). -/
def exTemplateC1 : Template := ⟨3, "T3", "aaaaaaaaaaaaaabb", 1, 0, true⟩

/-- Concrete middle-band environment: verification invalid WITH
corrections, and a stage-3 analysis returning different records. -/
def exEnvC1 : UploadEnv :=
  { isCnc := false,
    cncResult := ⟨[], 1, "", ""⟩,
    templates := [exTemplateC1],
    fingerprint := "aaaaaaaaaaaaaaaa",
    mappingData := [⟨"MAP", "P1", 10⟩],
    verification := ⟨false, Option.none, [⟨"COR", "P1", 11⟩]⟩,
    analysis := ⟨[⟨"LLM", "P1", 12⟩], some (9/10), some "vision notes"⟩ }

theorem exEnvC1_match :
    find_matching_template exEnvC1.templates exEnvC1.fingerprint =
      (some exTemplateC1, 175/2) := by
  have hne : ("aaaaaaaaaaaaaaaa" : String) ≠ "aaaaaaaaaaaaaabb" := by decide
  have hag : agreeCount "aaaaaaaaaaaaaaaa" "aaaaaaaaaaaaaabb" = 14 := by
    decide
  have hl : ("aaaaaaaaaaaaaaaa" : String).toList.length = 16 := rfl
  have hsim : calculate_similarity "aaaaaaaaaaaaaaaa" "aaaaaaaaaaaaaabb"
      = 175/2 := by
    rw [calculate_similarity, if_neg hne, hag, hl]
    norm_num
  show find_matching_template [exTemplateC1] "aaaaaaaaaaaaaaaa" = _
  unfold find_matching_template
  rw [show [exTemplateC1].find?
      (fun t => t.fingerprint == "aaaaaaaaaaaaaaaa" && t.is_active)
      = Option.none from rfl]
  dsimp only
  rw [show [exTemplateC1].filter (·.is_active) = [exTemplateC1] from rfl]
  rw [bestTemplateFold_cons, bestTemplateFold_nil]
  rw [show exTemplateC1.fingerprint = "aaaaaaaaaaaaaabb" from rfl, hsim]
  rw [if_pos (by norm_num : (175/2 : ℚ) > (Option.none (α := Template),
    (0:ℚ)).2)]
  rw [if_pos (by norm_num [TEMPLATE_MIN_CONFIDENCE] :
    ((some exTemplateC1, (175/2 : ℚ)).2 ≥ TEMPLATE_MIN_CONFIDENCE * 100))]

/-- Counterexample to C1 as stated: in the middle band (score 87.5)
with an invalid verification that DOES supply corrected records, the
response's record set is stage 3's analysis data, not the corrections
(`data = corrections` in the source is a dead assignment). -/
theorem C1_counterexample :
    70 ≤ (find_matching_template exEnvC1.templates exEnvC1.fingerprint).2 ∧
    (find_matching_template exEnvC1.templates exEnvC1.fingerprint).2 < 90 ∧
    exEnvC1.verification.is_valid = false ∧
    exEnvC1.verification.corrections = [⟨"COR", "P1", 11⟩] ∧
    (upload_forecast exEnvC1).response.data =
      [ForecastItem.ofMapped ⟨"LLM", "P1", 12⟩] ∧
    (upload_forecast exEnvC1).response.data ≠
      exEnvC1.verification.corrections.map ForecastItem.ofMapped := by
  have hrun := upload_forecast_middle_invalid exEnvC1 exTemplateC1
    (175/2) rfl exEnvC1_match (by norm_num) (by norm_num) rfl
  refine ⟨?_, ?_, rfl, rfl, ?_, ?_⟩
  · rw [exEnvC1_match]
    norm_num
  · rw [exEnvC1_match]
    norm_num
  · rw [hrun]
    rfl
  · rw [hrun]
    decide

/-- Witness for amended C1 at the concrete middle-band environment. -/
theorem C1_middle_band_corrections_dead_witness :
    upload_forecast exEnvC1 = fullAnalysisStage exEnvC1
      [Stage.fixedFormat, Stage.templateMatch, Stage.verification] ∧
    (upload_forecast exEnvC1).response.data =
      exEnvC1.analysis.data.map ForecastItem.ofMapped ∧
    (upload_forecast exEnvC1).response.confidence =
      exEnvC1.analysis.confidence.getD 0 ∧
    (upload_forecast exEnvC1).response.notes =
      some (exEnvC1.analysis.notes.getD
        "LLM 분석 완료 - 템플릿 저장을 권장합니다") ∧
    (upload_forecast exEnvC1).response.template_matched = false ∧
    (upload_forecast exEnvC1).stages =
      [Stage.fixedFormat, Stage.templateMatch, Stage.verification,
        Stage.fullAnalysis] ∧
    (upload_forecast exEnvC1).metrics = [⟨false, true, 0⟩] ∧
    (upload_forecast exEnvC1).usages = [] :=
  C1_middle_band_corrections_dead exEnvC1 exTemplateC1 (175/2) rfl
    exEnvC1_match (by norm_num) (by norm_num) rfl
